import Mathlib

/-!
Verification of the trampoline game prototype (src/trampoline/game.js).

The development shallow-embeds the game's core logic: the entity model
(solid platforms, trampolines, stars, player-start markers), the
per-tick physics and collision scan, the level save/load store, and the
editor placement/erase operations.  JavaScript numbers are modelled as
rationals (all arithmetic in the embedded code is exact: additions,
subtractions, comparisons and halving).  PIXI sprite bounds for an
entity anchored at `(0.5, 0.5)` are the rectangle centred on `(x, y)`
with the entity's texture size; entities are always at unit scale in
the states we consider (the transient squash animation is a timed
visual effect outside the tick).
-/

namespace TrampolineGame

/-- An axis-aligned rectangle, as returned by `getBounds()`. -/
structure Rect where
  x : ℚ
  y : ℚ
  w : ℚ
  h : ℚ
deriving DecidableEq, Repr

/-- The four entity kinds; `platformType` in the source
(`'solid' | 'trampoline' | 'star' | 'playerStart'`). -/
inductive PlatformType
  | solid
  | trampoline
  | star
  | playerStart
deriving DecidableEq, Repr

/-- The `constructor.name` of the class realising each platform type,
as used by `Game.saveLevel` (`type: platform.constructor.name`). -/
def PlatformType.ctorName : PlatformType → String
  | .solid => "SolidPlatform"
  | .trampoline => "Trampoline"
  | .star => "Star"
  | .playerStart => "PlayerStart"

/-- A placeable entity (a `Platform` subclass instance in the source).
`texW`/`texH` are the generated texture's dimensions (what `getBounds`
reports for width/height at unit scale); `platformWidth`/`platformHeight`
are the extra fields only `SolidPlatform` sets; `bounceForce` defaults to
`-15` in the `Platform` base constructor; `collected`/`alpha` matter for
stars. -/
structure Entity where
  platformType : PlatformType
  x : ℚ
  y : ℚ
  texW : ℚ
  texH : ℚ
  bounceForce : ℚ
  platformWidth : Option ℚ
  platformHeight : Option ℚ
  collected : Bool
  alpha : ℚ
deriving DecidableEq, Repr

/-- Constructor `new SolidPlatform(x, y, width, height)`: draws a `width×height`
rectangle texture, records `platformWidth`/`platformHeight`. -/
def mkSolidPlatform (x y w h : ℚ) : Entity :=
  { platformType := .solid, x := x, y := y, texW := w, texH := h,
    bounceForce := -15, platformWidth := some w, platformHeight := some h,
    collected := false, alpha := 1 }

/-- Constructor `new Trampoline(x, y, bounceForce)`: 120×20 rounded-rect texture. -/
def mkTrampoline (x y bf : ℚ) : Entity :=
  { platformType := .trampoline, x := x, y := y, texW := 120, texH := 20,
    bounceForce := bf, platformWidth := none, platformHeight := none,
    collected := false, alpha := 1 }

/-- Nominal texture width of the star polygon graphic (the polygon is
drawn inside a 30×30 box; the renderer derives the exact pixel bounds,
and no claim below depends on the numeric value). -/
def starTexW : ℚ := 30

/-- Nominal texture height of the star polygon graphic. -/
def starTexH : ℚ := 30

/-- Constructor `new Star(x, y)`: star polygon texture, `collected` starts false. -/
def mkStar (x y : ℚ) : Entity :=
  { platformType := .star, x := x, y := y, texW := starTexW, texH := starTexH,
    bounceForce := -15, platformWidth := none, platformHeight := none,
    collected := false, alpha := 1 }

/-- Constructor `new PlayerStart(x, y)`: circle marker drawn inside a 30×30 box
(same caveat as for the star texture). -/
def mkPlayerStart (x y : ℚ) : Entity :=
  { platformType := .playerStart, x := x, y := y, texW := 30, texH := 30,
    bounceForce := -15, platformWidth := none, platformHeight := none,
    collected := false, alpha := 1 }

/-- The `getBounds()` box of an entity sprite: anchored at `(0.5, 0.5)`, so the
box is centred on `(x, y)` with the texture's size. -/
def Entity.getBounds (e : Entity) : Rect :=
  { x := e.x - e.texW / 2, y := e.y - e.texH / 2, w := e.texW, h := e.texH }

/-- The character's sprite is a 40×40 rectangle. -/
def playerW : ℚ := 40

/-- The character's sprite is a 40×40 rectangle. -/
def playerH : ℚ := 40

/-- The playable character (`Catfox`). -/
structure Player where
  x : ℚ
  y : ℚ
  vx : ℚ
  vy : ℚ
  onGround : Bool
deriving DecidableEq, Repr

/-- The `getBounds()` box of the character: 40×40 box centred on `(x, y)`
(anchor `(0.5, 0.5)`). -/
def Player.getBounds (p : Player) : Rect :=
  { x := p.x - playerW / 2, y := p.y - playerH / 2, w := playerW, h := playerH }

/-- Predicate `Catfox.isStandingOn(target)`: horizontal extents overlap and the
character's bottom edge lies strictly between the target's top and
bottom edges. -/
def isStandingOn (p : Player) (target : Rect) : Bool :=
  let pb := p.getBounds
  decide (pb.x < target.x + target.w) &&
  decide (pb.x + pb.w > target.x) &&
  decide (pb.y + pb.h < target.y + target.h) &&
  decide (pb.y + pb.h > target.y)

/-- Predicate `Catfox.isIntersecting(target)`: standard strict AABB overlap. -/
def isIntersecting (p : Player) (target : Rect) : Bool :=
  let pb := p.getBounds
  decide (pb.x < target.x + target.w) &&
  decide (pb.x + pb.w > target.x) &&
  decide (pb.y < target.y + target.h) &&
  decide (pb.y + pb.h > target.y)

/-- Method `Star.onPlayerCollision`: acts on the star itself — if not yet
collected, mark collected and drop alpha to 0.5. -/
def starCollision (e : Entity) : Entity :=
  if e.collected then e else { e with collected := true, alpha := 1/2 }

/-- The player-affecting collision responses, dispatched on the entity's
type exactly as the subclass virtual methods are:
`SolidPlatform.onPlayerCollision` zeroes `vy`, rests the character's box
on the platform's top edge and sets `onGround`;
`Trampoline.onPlayerCollision` assigns `vy := bounceForce` and rests the
character on the trampoline; `Star`/`PlayerStart` do not touch the
player. -/
def onPlayerCollision (e : Entity) (p : Player) : Player :=
  match e.platformType with
  | .solid => { p with vy := 0, y := e.getBounds.y - playerH / 2, onGround := true }
  | .trampoline => { p with vy := e.bounceForce, y := e.getBounds.y - playerH / 2 }
  | .star => p
  | .playerStart => p

/-- Method `Game.checkPlatformCollisions`: scan the live entity sequence in
order.  Stars are tested with `isIntersecting` unconditionally and never
stop the scan; `playerStart` entities are skipped (`continue`); any other
entity is tested with `isStandingOn` only while `vy > 0`, and on a hit its
response runs and the scan stops (`break`).  Returns the updated player
and the updated entity list. -/
def checkPlatformCollisions (p : Player) : List Entity → Player × List Entity
  | [] => (p, [])
  | e :: rest =>
    if e.platformType = .star then
      ((checkPlatformCollisions p rest).1,
        (if isIntersecting p e.getBounds then starCollision e else e) ::
          (checkPlatformCollisions p rest).2)
    else if e.platformType = .playerStart then
      ((checkPlatformCollisions p rest).1, e :: (checkPlatformCollisions p rest).2)
    else if 0 < p.vy then
      if isStandingOn p e.getBounds then
        (onPlayerCollision e p, e :: rest)
      else
        ((checkPlatformCollisions p rest).1, e :: (checkPlatformCollisions p rest).2)
    else
      ((checkPlatformCollisions p rest).1, e :: (checkPlatformCollisions p rest).2)

/-- A 2-D point (plain `{x, y}` object in the source). -/
structure Point where
  x : ℚ
  y : ℚ
deriving DecidableEq, Repr

/-- World width: `app.screen.width = 800`. -/
def screenW : ℚ := 800

/-- World height: `app.screen.height = 600`. -/
def screenH : ℚ := 600

/-- Gravity constant `this.gravity = 0.8`. -/
def gravity : ℚ := 0.8

/-- The per-tick mutable game state touched by physics and the editor:
the character, the live entity sequence, and the recorded default start
position (`this.playerStartPos`). -/
structure GameState where
  player : Player
  platforms : List Entity
  playerStartPos : Point
deriving DecidableEq, Repr

/-- Method `Game.resetGame`: reposition the character to the first
`playerStart` entity in the live sequence (else the stored default),
zero the velocity, clear `onGround`, and un-collect every star
(restoring its alpha to opaque). -/
def resetGame (st : GameState) : GameState :=
  let p0 := st.player
  let p1 :=
    match st.platforms.find? (fun e => decide (e.platformType = PlatformType.playerStart)) with
    | some s => { p0 with x := s.x, y := s.y }
    | none => { p0 with x := st.playerStartPos.x, y := st.playerStartPos.y }
  { st with
    player := { p1 with vx := 0, vy := 0, onGround := false },
    platforms := st.platforms.map (fun e =>
      if e.platformType = PlatformType.star then { e with collected := false, alpha := 1 } else e) }

/-- Integration phase of `Game.updatePhysics`: `vy += gravity`, then
`x += vx; y += vy` (with the already-updated `vy`). -/
def stepIntegrate (st : GameState) : GameState :=
  let vy2 := st.player.vy + gravity
  { st with player := { st.player with vy := vy2, x := st.player.x + st.player.vx, y := st.player.y + vy2 } }

/-- Collision phase of `Game.updatePhysics`: run the platform scan. -/
def stepCollide (st : GameState) : GameState :=
  let pr := checkPlatformCollisions st.player st.platforms
  { st with player := pr.1, platforms := pr.2 }

/-- The fixed ground line for the character's centre:
`screen.height - 100 - player.height / 2 = 480`. -/
def groundY : ℚ := screenH - 100 - playerH / 2

/-- Ground-collision phase of `Game.updatePhysics`: clamp the character
onto the full-width ground strip. -/
def stepGround (st : GameState) : GameState :=
  if groundY ≤ st.player.y then
    { st with player := { st.player with y := groundY, vy := 0, onGround := true } }
  else st

/-- Screen-boundary phase of `Game.updatePhysics`: keep the character's
box horizontally inside the screen. -/
def stepClampX (st : GameState) : GameState :=
  if st.player.x < playerW / 2 then
    { st with player := { st.player with x := playerW / 2 } }
  else if screenW - playerW / 2 < st.player.x then
    { st with player := { st.player with x := screenW - playerW / 2 } }
  else st

/-- Fall-off phase of `Game.updatePhysics`: `if (player.y > screen.height + 100) resetGame()`. -/
def fallCheck (st : GameState) : GameState :=
  if screenH + 100 < st.player.y then resetGame st else st

/-- Method `Game.updatePhysics`: gravity integration, collision scan, ground
clamp, horizontal clamp, fall-off check — in source order. -/
def updatePhysics (st : GameState) : GameState :=
  fallCheck (stepClampX (stepGround (stepCollide (stepIntegrate st))))

/-! ## Level save/load -/

/-- One serialized entity, as produced by `Game.saveLevel`
(`type` is `platform.constructor.name`; `bounceForce` may be `null`). -/
structure PlatformRecord where
  type : String
  x : ℚ
  y : ℚ
  width : ℚ
  height : ℚ
  bounceForce : Option ℚ
  collected : Bool
deriving DecidableEq, Repr

/-- One persisted level record: the source object literal has keys
`name`, `platforms` and `playerStart`. -/
structure LevelData where
  name : String
  platforms : List PlatformRecord
  playerStart : Point
deriving DecidableEq, Repr

/-- JavaScript `v || fallback` on a number: `0` is falsy. -/
def jsOrQ (v fallback : ℚ) : ℚ :=
  if v = 0 then fallback else v

/-- The per-entity serializer inside `Game.saveLevel`:
`width: platform.platformWidth || bounds.width` (likewise height),
`bounceForce: platform.bounceForce || null`,
`collected: platform.collected || false`. -/
def savePlatformRecord (e : Entity) : PlatformRecord :=
  { type := e.platformType.ctorName,
    x := e.x, y := e.y,
    width := match e.platformWidth with
      | some w => jsOrQ w e.getBounds.w
      | none => e.getBounds.w,
    height := match e.platformHeight with
      | some h => jsOrQ h e.getBounds.h
      | none => e.getBounds.h,
    bounceForce := if e.bounceForce = 0 then none else some e.bounceForce,
    collected := e.collected }

/-- The per-record reconstruction inside `Game.loadLevel`: dispatch on
the stored `type` tag; an unrecognized tag is skipped (`none`). -/
def loadPlatform (r : PlatformRecord) : Option Entity :=
  match r.type with
  | "SolidPlatform" =>
      some (mkSolidPlatform r.x r.y (jsOrQ r.width 120) (jsOrQ r.height 20))
  | "Trampoline" =>
      some (mkTrampoline r.x r.y
        (match r.bounceForce with
         | some bf => jsOrQ bf (-20)
         | none => -20))
  | "Star" =>
      let s := mkStar r.x r.y
      some (if r.collected then { s with collected := true, alpha := 1/2 } else s)
  | "PlayerStart" =>
      some (mkPlayerStart r.x r.y)
  | _ => none

/-- The whole persistent session: the game state, the level store
(`localStorage['trampolineLevels']`, a name-keyed mapping), the
`currentLevelName` field and the last-used-level slot
(`localStorage['trampolineLastLevel']`).  Storage itself is modelled as
a pure mapping; environment write failures (quota) are outside the
embedded logic, so writes always succeed. -/
structure Session where
  game : GameState
  currentLevelName : Option String
  levels : String → Option LevelData
  lastLevel : Option String

/-- Method `Game.saveLevel(levelName)`: serialize the live sequence and the
recorded start position, store the record under `levelName`, set
`currentLevelName` and the last-used slot, report success. -/
def saveLevel (levelName : String) (s : Session) : Session × Bool :=
  let ld : LevelData :=
    { name := levelName,
      platforms := s.game.platforms.map savePlatformRecord,
      playerStart := s.game.playerStartPos }
  ({ s with
      currentLevelName := some levelName,
      levels := fun n => if n = levelName then some ld else s.levels n,
      lastLevel := some levelName }, true)

/-- Method `Game.loadLevel(levelName)`: a missing name reports failure and
changes nothing; otherwise the live sequence is discarded and rebuilt
from the stored records (unknown tags skipped), the start position is
restored, and the name bookkeeping is updated. -/
def loadLevel (levelName : String) (s : Session) : Session × Bool :=
  match s.levels levelName with
  | none => (s, false)
  | some ld =>
    ({ s with
        game := { s.game with
          platforms := ld.platforms.filterMap loadPlatform,
          playerStartPos := ld.playerStart },
        currentLevelName := some levelName,
        lastLevel := some levelName }, true)

/-! ## Editor operations -/

/-- Method `Game.removePlatform(index)`: in-bounds splice returning the removed
entity, out-of-bounds returns `null` and leaves the sequence alone.  The
index is an integer to cover negative inputs. -/
def removePlatform (index : ℤ) (plats : List Entity) : Option Entity × List Entity :=
  if 0 ≤ index ∧ index < (plats.length : ℤ) then
    (plats.get? index.toNat, plats.eraseIdx index.toNat)
  else (none, plats)

/-- Method `LevelEditor.placeObject(x, y, toolType)`: the tool table maps
`'platform'`, `'trampoline'`, `'star'` and `'playerStart'` to the entity
constructors (with the editor's default dimensions/force); the
`playerStart` tool first evicts every existing `playerStart` entity; the
erase tool (and any unknown tool) has no constructor and does nothing. -/
def placeObject (x y : ℚ) (toolType : String) (plats : List Entity) : List Entity :=
  match toolType with
  | "platform" => plats ++ [mkSolidPlatform x y 100 15]
  | "trampoline" => plats ++ [mkTrampoline x y (-20)]
  | "star" => plats ++ [mkStar x y]
  | "playerStart" =>
      (plats.filter (fun e => !(decide (e.platformType = PlatformType.playerStart)))) ++
        [mkPlayerStart x y]
  | _ => plats

/-- Method `PIXI.Rectangle.intersects`: strict AABB overlap of two rectangles. -/
def rectIntersects (a b : Rect) : Bool :=
  decide (a.x < b.x + b.w) && decide (b.x < a.x + a.w) &&
  decide (a.y < b.y + b.h) && decide (b.y < a.y + a.h)

/-- The 10×10 click probe of `LevelEditor.eraseAtPosition`:
`new PIXI.Rectangle(x - 5, y - 5, 10, 10)`. -/
def probe (x y : ℚ) : Rect :=
  { x := x - 5, y := y - 5, w := 10, h := 10 }

/-- The downward index loop of `LevelEditor.eraseAtPosition`
(`for (let i = length - 1; i >= 0; i--) … break`): starting below
index `n`, the highest index whose entity's bounds intersect the probe,
if any. -/
def hitIndexBelow (pr : Rect) (plats : List Entity) : ℕ → Option ℕ
  | 0 => none
  | i + 1 =>
    match plats.get? i with
    | some e => if rectIntersects pr e.getBounds then some i else hitIndexBelow pr plats i
    | none => hitIndexBelow pr plats i

/-- Method `LevelEditor.eraseAtPosition(x, y)`: scan the live sequence from the
most recently inserted entity downward and remove (via
`Game.removePlatform`) the first whose bounds intersect the probe. -/
def eraseAtPosition (x y : ℚ) (plats : List Entity) : List Entity :=
  match hitIndexBelow (probe x y) plats plats.length with
  | some i => (removePlatform (i : ℤ) plats).2
  | none => plats

/-! ## Derived notions used to state the claims -/

/-- Well-formedness of a live entity, from the data model (§3): a solid
carries positive dimensions, a trampoline a negative bounce force. -/
def wfEntity (e : Entity) : Bool :=
  match e.platformType with
  | .solid =>
    (match e.platformWidth with | some w => decide (0 < w) | none => false) &&
    (match e.platformHeight with | some h => decide (0 < h) | none => false)
  | .trampoline => decide (e.bounceForce < 0)
  | .star => true
  | .playerStart => true

/-- The observable fields of the round-trip property: the type tag, the
position, a solid's dimensions, a trampoline's bounce force and a star's
collected flag. -/
def fieldValues (e : Entity) : PlatformType × ℚ × ℚ × Option (ℚ × ℚ) × Option ℚ × Option Bool :=
  (e.platformType, e.x, e.y,
   if e.platformType = PlatformType.solid then
     match e.platformWidth, e.platformHeight with
     | some w, some h => some (w, h)
     | _, _ => none
   else none,
   if e.platformType = PlatformType.trampoline then some e.bounceForce else none,
   if e.platformType = PlatformType.star then some e.collected else none)

/-- An entity qualifies to stop the collision scan when it is a solid or
a trampoline, the character is falling, and the standing-on predicate
holds for it. -/
def qualifies (p : Player) (e : Entity) : Bool :=
  (decide (e.platformType = PlatformType.solid) ||
   decide (e.platformType = PlatformType.trampoline)) &&
  decide (0 < p.vy) && isStandingOn p e.getBounds

/-- The scan's effect on one examined entity: an intersecting star is
collected, every other examined entity is untouched. -/
def collectIfHit (p : Player) (e : Entity) : Entity :=
  if e.platformType = PlatformType.star then
    (if isIntersecting p e.getBounds then starCollision e else e)
  else e

/-- Index of the first qualifying solid/trampoline in the sequence. -/
def firstHit (p : Player) : List Entity → Option ℕ
  | [] => none
  | e :: rest => if qualifies p e then some 0 else (firstHit p rest).map (· + 1)

/-! ## Claim C3: landing on a solid platform -/

/-- C3: for every falling character (`vy > 0`) whose horizontal extent
overlaps a solid entity's and whose bottom edge lies strictly between
that entity's top and bottom edges, the solid collision response leaves
the character's bottom edge exactly on the platform's top edge, with
`vy = 0` and `onGround = true`. -/
theorem solid_landing_resolution (p : Player) (e : Entity)
    (htype : e.platformType = PlatformType.solid)
    (hfall : 0 < p.vy)
    (hx1 : p.getBounds.x < e.getBounds.x + e.getBounds.w)
    (hx2 : e.getBounds.x < p.getBounds.x + p.getBounds.w)
    (hy1 : e.getBounds.y < p.getBounds.y + p.getBounds.h)
    (hy2 : p.getBounds.y + p.getBounds.h < e.getBounds.y + e.getBounds.h) :
    (onPlayerCollision e p).getBounds.y + (onPlayerCollision e p).getBounds.h = e.getBounds.y ∧
    (onPlayerCollision e p).vy = 0 ∧
    (onPlayerCollision e p).onGround = true := by
  obtain ⟨pt, ex, ey, tw, th, bf, pw, ph, col, al⟩ := e
  simp only [Entity.platformType] at htype
  subst htype
  refine ⟨?_, rfl, rfl⟩
  simp only [onPlayerCollision, Player.getBounds, playerH]
  ring

/-- Witness for C3 at a concrete falling contact. -/
theorem solid_landing_resolution_wit :
    (onPlayerCollision (mkSolidPlatform 100 125 100 15)
        { x := 100, y := 100, vx := 0, vy := 5, onGround := false }).getBounds.y +
      (onPlayerCollision (mkSolidPlatform 100 125 100 15)
        { x := 100, y := 100, vx := 0, vy := 5, onGround := false }).getBounds.h =
      (mkSolidPlatform 100 125 100 15).getBounds.y ∧
    (onPlayerCollision (mkSolidPlatform 100 125 100 15)
        { x := 100, y := 100, vx := 0, vy := 5, onGround := false }).vy = 0 ∧
    (onPlayerCollision (mkSolidPlatform 100 125 100 15)
        { x := 100, y := 100, vx := 0, vy := 5, onGround := false }).onGround = true :=
  solid_landing_resolution _ _ rfl (by norm_num)
    (by norm_num [Player.getBounds, Entity.getBounds, mkSolidPlatform, playerW, playerH])
    (by norm_num [Player.getBounds, Entity.getBounds, mkSolidPlatform, playerW, playerH])
    (by norm_num [Player.getBounds, Entity.getBounds, mkSolidPlatform, playerW, playerH])
    (by norm_num [Player.getBounds, Entity.getBounds, mkSolidPlatform, playerW, playerH])

/-! ## Claim C4: trampoline bounce -/

/-- C4: for every trampoline contact resolved under the falling
condition, the character's `vy` afterwards equals exactly the
trampoline's `bounceForce` (assignment, not addition, whatever `vy` was
before), and the character's bottom edge is placed on the trampoline's
top edge. -/
theorem trampoline_bounce_resolution (p : Player) (e : Entity)
    (htype : e.platformType = PlatformType.trampoline)
    (hfall : 0 < p.vy)
    (hstand : isStandingOn p e.getBounds = true) :
    (onPlayerCollision e p).vy = e.bounceForce ∧
    (onPlayerCollision e p).getBounds.y + (onPlayerCollision e p).getBounds.h = e.getBounds.y := by
  obtain ⟨pt, ex, ey, tw, th, bf, pw, ph, col, al⟩ := e
  simp only [Entity.platformType] at htype
  subst htype
  refine ⟨rfl, ?_⟩
  simp only [onPlayerCollision, Player.getBounds, playerH]
  ring

/-- Witness for C4 at a concrete falling contact: prior `vy = 9` is
overridden by the configured bounce force `-18`. -/
theorem trampoline_bounce_resolution_wit :
    (onPlayerCollision (mkTrampoline 100 125 (-18))
        { x := 100, y := 100, vx := 0, vy := 9, onGround := false }).vy =
      (mkTrampoline 100 125 (-18)).bounceForce ∧
    (onPlayerCollision (mkTrampoline 100 125 (-18))
        { x := 100, y := 100, vx := 0, vy := 9, onGround := false }).getBounds.y +
      (onPlayerCollision (mkTrampoline 100 125 (-18))
        { x := 100, y := 100, vx := 0, vy := 9, onGround := false }).getBounds.h =
      (mkTrampoline 100 125 (-18)).getBounds.y :=
  trampoline_bounce_resolution _ _ rfl (by norm_num)
    (by norm_num [isStandingOn, Player.getBounds, Entity.getBounds, mkTrampoline, playerW, playerH])

/-! ## Claim C6: shape of the persisted records -/

/-- A session used to exhibit the saved type tags. -/
def sessionC6 : Session :=
  { game :=
      { player := { x := 100, y := 100, vx := 0, vy := 0, onGround := false },
        platforms := [mkSolidPlatform 0 0 100 15],
        playerStartPos := { x := 100, y := 100 } },
    currentLevelName := none,
    levels := fun _ => none,
    lastLevel := none }

/-- C6 counterexample: the record saved for a solid platform has type
tag `"SolidPlatform"` (the constructor name), which is not in the closed
set `{"solid", "trampoline", "star", "playerStart"}` the claim names. -/
theorem savedType_tag_cex :
    Option.map (fun ld => ld.platforms.map PlatformRecord.type)
        ((saveLevel "L" sessionC6).1.levels "L") = some ["SolidPlatform"] ∧
    ¬ ("SolidPlatform" ∈ (["solid", "trampoline", "star", "playerStart"] : List String)) := by
  constructor
  · rfl
  · decide

/-- C6 amended: every per-entity record in a saved level draws its type
field from the closed set of constructor names
`{"SolidPlatform", "Trampoline", "Star", "PlayerStart"}` (and the level
record itself has fields `name`, `platforms`, `playerStart`). -/
theorem savedType_closed_set (s : Session) (name : String) (ld : LevelData)
    (h : (saveLevel name s).1.levels name = some ld) :
    ∀ r ∈ ld.platforms,
      r.type ∈ (["SolidPlatform", "Trampoline", "Star", "PlayerStart"] : List String) := by
  simp only [saveLevel, if_pos] at h
  obtain rfl : _ = ld := Option.some.inj h
  intro r hr
  simp only [List.mem_map] at hr
  obtain ⟨e, _, rfl⟩ := hr
  rcases hpt : e.platformType <;>
    simp [savePlatformRecord, PlatformType.ctorName, hpt]

/-- Witness for C6 amended at a concrete saved level. -/
theorem savedType_closed_set_wit :
    (savePlatformRecord (mkSolidPlatform 0 0 100 15)).type ∈
      (["SolidPlatform", "Trampoline", "Star", "PlayerStart"] : List String) :=
  savedType_closed_set sessionC6 "L" _ rfl _
    (by exact List.mem_map_of_mem _ (by simp [sessionC6]))

/-! ## Claim C7: loading a missing level is an atomic no-op -/

/-- C7: for every level name absent from the store, `loadLevel` reports
failure and returns the session — live entity sequence, character state,
recorded start position, current level name and last-used slot —
completely unchanged. -/
theorem loadLevel_missing_noop (name : String) (s : Session)
    (h : s.levels name = none) :
    loadLevel name s = (s, false) := by
  unfold loadLevel
  rw [h]

/-- A session with a nonempty live sequence and an empty store. -/
def sessionC7 : Session :=
  { game :=
      { player := { x := 100, y := 100, vx := 0, vy := 0, onGround := false },
        platforms := [mkTrampoline 200 450 (-18), mkStar 300 170],
        playerStartPos := { x := 100, y := 100 } },
    currentLevelName := none,
    levels := fun _ => none,
    lastLevel := none }

/-- Witness for C7: loading `"Nope"` from an empty store. -/
theorem loadLevel_missing_noop_wit :
    loadLevel "Nope" sessionC7 = (sessionC7, false) :=
  loadLevel_missing_noop "Nope" sessionC7 rfl

/-! ## Claim C10: removePlatform bounds behaviour -/

/-- In-bounds behaviour of `removePlatform`, shared between the erase
operation and the claim about `removePlatform` itself. -/
theorem removePlatform_in_bounds (i : ℕ) (plats : List Entity) (h : i < plats.length) :
    removePlatform (i : ℤ) plats = (plats.get? i, plats.take i ++ plats.drop (i + 1)) := by
  unfold removePlatform
  rw [if_pos (by constructor <;> omega)]
  rw [Int.toNat_ofNat, List.eraseIdx_eq_take_drop_succ]

/-- C10: `removePlatform i` with `i` out of bounds returns `null` and
leaves the sequence unchanged; with `0 ≤ i < length` it returns the
entity formerly at index `i`, removes exactly that entity and keeps the
remaining entities in their relative order. -/
theorem removePlatform_bounds_spec (index : ℤ) (plats : List Entity) :
    ((index < 0 ∨ (plats.length : ℤ) ≤ index) →
      removePlatform index plats = (none, plats)) ∧
    (0 ≤ index → index < (plats.length : ℤ) →
      (removePlatform index plats).1 = plats.get? index.toNat ∧
      (removePlatform index plats).2 = plats.take index.toNat ++ plats.drop (index.toNat + 1) ∧
      (removePlatform index plats).2.length + 1 = plats.length) := by
  constructor
  · intro h
    unfold removePlatform
    rw [if_neg (by omega)]
  · intro h0 hlt
    obtain ⟨i, rfl⟩ : ∃ i : ℕ, index = (i : ℤ) := ⟨index.toNat, by omega⟩
    have hi : i < plats.length := by exact_mod_cast hlt
    rw [removePlatform_in_bounds i plats hi]
    refine ⟨by simp, by simp, ?_⟩
    simp only [List.length_append, List.length_take, List.length_drop, Int.toNat_ofNat]
    omega

/-- Witness for C10 at a concrete index and sequence. -/
theorem removePlatform_bounds_spec_wit :
    (removePlatform (-1) [mkStar 1 2, mkStar 3 4] = (none, [mkStar 1 2, mkStar 3 4])) ∧
    (removePlatform 1 [mkStar 1 2, mkStar 3 4]).1 = [mkStar 1 2, mkStar 3 4].get? 1 ∧
    (removePlatform 1 [mkStar 1 2, mkStar 3 4]).2 =
      [mkStar 1 2, mkStar 3 4].take 1 ++ [mkStar 1 2, mkStar 3 4].drop 2 :=
  ⟨(removePlatform_bounds_spec (-1) [mkStar 1 2, mkStar 3 4]).1 (by norm_num),
   ((removePlatform_bounds_spec 1 [mkStar 1 2, mkStar 3 4]).2 (by norm_num) (by norm_num)).1,
   ((removePlatform_bounds_spec 1 [mkStar 1 2, mkStar 3 4]).2 (by norm_num) (by norm_num)).2.1⟩

/-! ## Claim C8: the playerStart placement invariant -/

/-- C8: placing a `playerStart` via the editor first removes all
existing `playerStart` entities and appends the new one, so afterwards
exactly one `playerStart` is present — the most recently placed; the
other tools only append, never remove; and every placement preserves the
at-most-one-`playerStart` invariant. -/
theorem placeObject_playerStart_unique (x y : ℚ) (plats : List Entity) :
    ((placeObject x y "playerStart" plats).countP
        (fun e => decide (e.platformType = PlatformType.playerStart)) = 1) ∧
    ((placeObject x y "playerStart" plats).getLast? = some (mkPlayerStart x y)) ∧
    (∀ e ∈ placeObject x y "playerStart" plats,
        e.platformType = PlatformType.playerStart → e = mkPlayerStart x y) ∧
    (∀ t ∈ (["platform", "trampoline", "star"] : List String),
        ∃ n, placeObject x y t plats = plats ++ [n]) ∧
    (∀ t : String,
        plats.countP (fun e => decide (e.platformType = PlatformType.playerStart)) ≤ 1 →
        (placeObject x y t plats).countP
          (fun e => decide (e.platformType = PlatformType.playerStart)) ≤ 1) := by
  have hfilter : (plats.filter
      (fun e => !(decide (e.platformType = PlatformType.playerStart)))).countP
      (fun e => decide (e.platformType = PlatformType.playerStart)) = 0 := by
    rw [List.countP_eq_zero]
    intro a ha
    rw [List.mem_filter] at ha
    simpa using ha.2
  have hone : (placeObject x y "playerStart" plats).countP
      (fun e => decide (e.platformType = PlatformType.playerStart)) = 1 := by
    show ((plats.filter _) ++ [mkPlayerStart x y]).countP _ = 1
    rw [List.countP_append, hfilter]
    simp [mkPlayerStart, List.countP_cons]
  refine ⟨hone, ?_, ?_, ?_, ?_⟩
  · show ((plats.filter _) ++ [mkPlayerStart x y]).getLast? = _
    simp
  · intro e he hpt
    rcases List.mem_append.mp he with hf | hf
    · rw [List.mem_filter] at hf
      exact absurd hpt (by simpa using hf.2)
    · simpa using hf
  · intro t ht
    fin_cases ht
    · exact ⟨mkSolidPlatform x y 100 15, rfl⟩
    · exact ⟨mkTrampoline x y (-20), rfl⟩
    · exact ⟨mkStar x y, rfl⟩
  · intro t hle
    by_cases h1 : t = "platform"
    · subst h1
      show (plats ++ [mkSolidPlatform x y 100 15]).countP _ ≤ 1
      rw [List.countP_append]
      simp only [List.countP_cons, List.countP_nil, mkSolidPlatform]
      simpa using hle
    by_cases h2 : t = "trampoline"
    · subst h2
      show (plats ++ [mkTrampoline x y (-20)]).countP _ ≤ 1
      rw [List.countP_append]
      simp only [List.countP_cons, List.countP_nil, mkTrampoline]
      simpa using hle
    by_cases h3 : t = "star"
    · subst h3
      show (plats ++ [mkStar x y]).countP _ ≤ 1
      rw [List.countP_append]
      simp only [List.countP_cons, List.countP_nil, mkStar]
      simpa using hle
    by_cases h4 : t = "playerStart"
    · subst h4
      exact hone.le
    · have : placeObject x y t plats = plats := by
        unfold placeObject
        split
        · exact absurd rfl h1
        · exact absurd rfl h2
        · exact absurd rfl h3
        · exact absurd rfl h4
        · rfl
      rw [this]
      exact hle

/-- A live sequence with one `playerStart` already present. -/
def platsC8 : List Entity := [mkPlayerStart 1 2, mkSolidPlatform 3 4 100 15]

/-- Witness for C8 at a concrete placement. -/
theorem placeObject_playerStart_unique_wit :
    (placeObject 10 20 "playerStart" platsC8).countP
        (fun e => decide (e.platformType = PlatformType.playerStart)) = 1 ∧
    (placeObject 10 20 "star" platsC8).countP
        (fun e => decide (e.platformType = PlatformType.playerStart)) ≤ 1 :=
  ⟨(placeObject_playerStart_unique 10 20 platsC8).1,
   (placeObject_playerStart_unique 10 20 platsC8).2.2.2.2 "star" (by decide)⟩

/-! ## Claim C9: erase removes the most recently inserted hit -/

/-- The downward erase loop finds nothing when no entity's bounds
intersect the probe. -/
theorem hitIndexBelow_eq_none (pr : Rect) (plats : List Entity) (n : ℕ)
    (h : ∀ i e, i < n → plats.get? i = some e → rectIntersects pr e.getBounds = false) :
    hitIndexBelow pr plats n = none := by
  induction n with
  | zero => rfl
  | succ m ih =>
    unfold hitIndexBelow
    split
    next e hg =>
      rw [h m e (by omega) hg, if_neg (by simp)]
      exact ih (fun i e hi hgi => h i e (by omega) hgi)
    next hg =>
      exact ih (fun i e hi hgi => h i e (by omega) hgi)

/-- The downward erase loop returns the highest intersecting index. -/
theorem hitIndexBelow_eq_some (pr : Rect) (plats : List Entity) (i : ℕ) (e : Entity)
    (hget : plats.get? i = some e) (hhit : rectIntersects pr e.getBounds = true)
    (habove : ∀ j f, i < j → plats.get? j = some f → rectIntersects pr f.getBounds = false) :
    ∀ n, i < n → hitIndexBelow pr plats n = some i := by
  intro n
  induction n with
  | zero => omega
  | succ m ih =>
    intro hin
    unfold hitIndexBelow
    split
    next f hg =>
      by_cases him : i = m
      · subst him
        rw [hget] at hg
        obtain rfl : e = f := Option.some.inj hg
        rw [hhit, if_pos rfl]
      · have him2 : i < m := by omega
        rw [habove m f him2 hg, if_neg (by simp)]
        exact ih him2
    next hg =>
      by_cases him : i = m
      · subst him
        rw [hget] at hg
        exact Option.noConfusion hg
      · exact ih (by omega)

/-- C9: for every click position and live sequence, the erase operation
removes nothing when no entity's bounding box intersects the 10×10 probe
centred on the click, and otherwise removes exactly the most recently
inserted (highest-index) intersecting entity, leaving every other entity
in place and in order. -/
theorem erase_removes_most_recent_hit (x y : ℚ) (plats : List Entity) :
    ((∀ i e, plats.get? i = some e → rectIntersects (probe x y) e.getBounds = false) →
      eraseAtPosition x y plats = plats) ∧
    (∀ i e, plats.get? i = some e → rectIntersects (probe x y) e.getBounds = true →
      (∀ j f, i < j → plats.get? j = some f → rectIntersects (probe x y) f.getBounds = false) →
      eraseAtPosition x y plats = plats.take i ++ plats.drop (i + 1)) := by
  constructor
  · intro h
    unfold eraseAtPosition
    rw [hitIndexBelow_eq_none (probe x y) plats plats.length
      (fun i e _ hg => h i e hg)]
  · intro i e hget hhit habove
    have hi : i < plats.length := by
      by_contra hn
      rw [List.get?_eq_none.mpr (by omega)] at hget
      exact Option.noConfusion hget
    unfold eraseAtPosition
    rw [hitIndexBelow_eq_some (probe x y) plats i e hget hhit habove plats.length hi]
    show (removePlatform (i : ℤ) plats).2 = _
    rw [removePlatform_in_bounds i plats hi]

/-- Two stacked solid platforms, both under the probe of a click at
`(100, 100)`. -/
def platsC9 : List Entity := [mkSolidPlatform 100 100 100 15, mkSolidPlatform 100 105 100 15]

/-- Witness for C9: of two overlapping entities the most recently
inserted one (index 1) is removed and the other remains. -/
theorem erase_removes_most_recent_hit_wit :
    eraseAtPosition 100 100 platsC9 = platsC9.take 1 ++ platsC9.drop 2 :=
  (erase_removes_most_recent_hit 100 100 platsC9).2 1 (mkSolidPlatform 100 105 100 15) rfl
    (by norm_num [rectIntersects, probe, mkSolidPlatform, Entity.getBounds])
    (by
      intro j f hj hget
      have hlen : j < platsC9.length := by
        by_contra hn
        rw [List.get?_eq_none.mpr (by omega)] at hget
        exact Option.noConfusion hget
      simp only [platsC9, List.length_cons, List.length_nil] at hlen
      omega)

/-! ## Claim C2: the collision scan -/

/-- The falling character of the C2 instances. -/
def playerC2 : Player := { x := 100, y := 100, vx := 0, vy := 5, onGround := false }

/-- A solid the character is standing on, followed by a star whose box
intersects the character. -/
def platsC2 : List Entity := [mkSolidPlatform 100 125 100 15, mkStar 100 100]

/-- C2 counterexample: the star at index 1 intersects the character this
tick, but the solid at index 0 qualifies first and its `break` stops the
whole scan, so the intersecting star is NOT collected — refuting "every
star whose box intersects the character that tick is collected". -/
theorem scan_star_skipped_cex :
    isIntersecting playerC2 (mkStar 100 100).getBounds = true ∧
    (checkPlatformCollisions playerC2 platsC2).2.map Entity.collected = [false, false] := by
  constructor
  · norm_num [isIntersecting, playerC2, mkStar, Entity.getBounds, Player.getBounds,
      playerW, playerH, starTexW, starTexH]
  · norm_num [checkPlatformCollisions, playerC2, platsC2, mkSolidPlatform, mkStar,
      isStandingOn, isIntersecting, Entity.getBounds, Player.getBounds, playerW, playerH,
      starTexW, starTexH, onPlayerCollision, starCollision]
    decide

/-- C2 amended: scanning in sequence order, at most one solid/trampoline
response is invoked — the first entity qualifying (solid or trampoline,
`vy > 0`, standing-on) stops the scan; every star examined *before* that
point whose box intersects the character is collected (all intersecting
stars when nothing qualifies), stars at or after the stopping entity are
left untouched that tick, and `playerStart` entities are always skipped
unchanged. -/
theorem scan_characterization (p : Player) (plats : List Entity) :
    (firstHit p plats = none →
      checkPlatformCollisions p plats = (p, plats.map (collectIfHit p))) ∧
    (∀ k e, firstHit p plats = some k → plats.get? k = some e →
      checkPlatformCollisions p plats =
        (onPlayerCollision e p, (plats.take k).map (collectIfHit p) ++ plats.drop k)) := by
  induction plats with
  | nil =>
    refine ⟨fun _ => rfl, fun k e hk _ => absurd hk (by simp [firstHit])⟩
  | cons a rest ih =>
    by_cases hq : qualifies p a = true
    · have hq2 := hq
      unfold qualifies at hq2
      simp only [Bool.and_eq_true, Bool.or_eq_true, decide_eq_true_eq] at hq2
      obtain ⟨⟨hty, hvy⟩, hstand⟩ := hq2
      have hns : ¬ a.platformType = PlatformType.star := by
        rcases hty with h | h <;> simp [h]
      have hnp : ¬ a.platformType = PlatformType.playerStart := by
        rcases hty with h | h <;> simp [h]
      constructor
      · intro hnone
        unfold firstHit at hnone
        rw [if_pos hq] at hnone
        exact Option.noConfusion hnone
      · intro k e hk hget
        unfold firstHit at hk
        rw [if_pos hq] at hk
        obtain rfl : (0 : ℕ) = k := Option.some.inj hk
        obtain rfl : a = e := by simpa using hget
        unfold checkPlatformCollisions
        rw [if_neg hns, if_neg hnp, if_pos hvy, if_pos hstand]
        simp
    · have hstep : checkPlatformCollisions p (a :: rest) =
          ((checkPlatformCollisions p rest).1,
            collectIfHit p a :: (checkPlatformCollisions p rest).2) := by
        by_cases hs : a.platformType = PlatformType.star
        · conv_lhs => rw [checkPlatformCollisions]
          rw [if_pos hs]
          simp only [collectIfHit]
          rw [if_pos hs]
        · by_cases hps : a.platformType = PlatformType.playerStart
          · conv_lhs => rw [checkPlatformCollisions]
            rw [if_neg hs, if_pos hps]
            simp only [collectIfHit]
            rw [if_neg hs]
          · have hty2 : a.platformType = PlatformType.solid ∨
                a.platformType = PlatformType.trampoline := by
              cases h3 : a.platformType <;> simp_all
            conv_lhs => rw [checkPlatformCollisions]
            rw [if_neg hs, if_neg hps]
            have hch : collectIfHit p a = a := by
              unfold collectIfHit
              rw [if_neg hs]
            rw [hch]
            by_cases hvy : 0 < p.vy
            · rw [if_pos hvy]
              have hstand : isStandingOn p a.getBounds = false := by
                by_contra hc
                have ht : isStandingOn p a.getBounds = true := by
                  revert hc
                  cases isStandingOn p a.getBounds <;> simp
                apply hq
                unfold qualifies
                rcases hty2 with h2 | h2 <;> simp [h2, hvy, ht]
              rw [if_neg (by simp [hstand])]
            · rw [if_neg hvy]
      constructor
      · intro hnone
        unfold firstHit at hnone
        rw [if_neg hq] at hnone
        have hrest : firstHit p rest = none := by
          cases hfr : firstHit p rest
          · rfl
          · rw [hfr] at hnone
            exact Option.noConfusion hnone
        rw [hstep, ih.1 hrest]
        simp
      · intro k e hk hget
        unfold firstHit at hk
        rw [if_neg hq] at hk
        obtain ⟨k2, hk2, rfl⟩ := Option.map_eq_some'.mp hk
        have hget2 : rest.get? k2 = some e := by simpa using hget
        rw [hstep, ih.2 k2 e hk2 hget2]
        simp

/-- Witness for C2 amended: the solid at index 0 of `platsC2` is the
first qualifying entity, so the scan resolves on it and stops. -/
theorem scan_characterization_wit :
    checkPlatformCollisions playerC2 platsC2 =
      (onPlayerCollision (mkSolidPlatform 100 125 100 15) playerC2,
        (platsC2.take 0).map (collectIfHit playerC2) ++ platsC2.drop 0) :=
  (scan_characterization playerC2 platsC2).2 0 (mkSolidPlatform 100 125 100 15)
    (by
      norm_num [firstHit, qualifies, platsC2, playerC2, isStandingOn, mkSolidPlatform,
        Entity.getBounds, Player.getBounds, playerW, playerH])
    rfl

/-! ## Claim C5: fall-off detection and world reset -/

/-- A state whose character is far below the world (`y = 800 > 700`),
with a collected star and a `playerStart` marker at `(50, 80)`. -/
def stateC5 : GameState :=
  { player := { x := 100, y := 800, vx := 0, vy := 0, onGround := false },
    platforms := [{ mkStar 700 100 with collected := true, alpha := 1/2 },
                  mkPlayerStart 50 80],
    playerStartPos := { x := 100, y := 100 } }

/-- C5 counterexample: from a state with `y = 800`, which exceeds the
world height plus the margin (700), the tick does NOT perform the
claimed world reset — the ground clamp (which runs before the fall-off
check) pulls the character to `y = 480`, so the character is not moved
to the `playerStart` position `(50, 80)` and the collected star stays
collected. -/
theorem fallReset_unreachable_cex :
    screenH + 100 < stateC5.player.y ∧
    (updatePhysics stateC5).player.y = 480 ∧
    (updatePhysics stateC5).platforms.map Entity.collected = [true, false] ∧
    ¬ ((updatePhysics stateC5).player.x = 50 ∧ (updatePhysics stateC5).player.y = 80) := by
  have hrun : updatePhysics stateC5 =
      { player := { x := 100, y := 480, vx := 0, vy := 0, onGround := true },
        platforms := stateC5.platforms,
        playerStartPos := { x := 100, y := 100 } } := by
    norm_num [updatePhysics, stateC5, stepIntegrate, stepCollide, stepGround, stepClampX,
      fallCheck, checkPlatformCollisions, isStandingOn, isIntersecting, Entity.getBounds,
      Player.getBounds, playerW, playerH, starTexW, starTexH, mkStar, mkPlayerStart,
      gravity, groundY, screenW, screenH, onPlayerCollision, starCollision, resetGame]
  rw [hrun]
  norm_num [stateC5, screenH, mkStar, mkPlayerStart]

/-- C5 amended: the tick's fall-off check can never fire — the ground
clamp that precedes it bounds the character's `y` at the ground line
(480), below the reset threshold (700), so `updatePhysics` never invokes
`resetGame`; `resetGame` itself, when invoked, repositions the character
to the first `playerStart` entity's position if one exists (else the
stored default start), zeroes the velocity, clears `onGround`, and
resets every star's collected flag and alpha. -/
theorem fallReset_behavior (st : GameState) :
    (updatePhysics st = stepClampX (stepGround (stepCollide (stepIntegrate st))) ∧
      (stepClampX (stepGround (stepCollide (stepIntegrate st)))).player.y ≤ groundY) ∧
    ((resetGame st).player.vx = 0 ∧ (resetGame st).player.vy = 0 ∧
      (resetGame st).player.onGround = false ∧
      (∀ e, st.platforms.find?
          (fun a => decide (a.platformType = PlatformType.playerStart)) = some e →
        (resetGame st).player.x = e.x ∧ (resetGame st).player.y = e.y) ∧
      (st.platforms.find?
          (fun a => decide (a.platformType = PlatformType.playerStart)) = none →
        (resetGame st).player.x = st.playerStartPos.x ∧
        (resetGame st).player.y = st.playerStartPos.y) ∧
      (resetGame st).platforms = st.platforms.map (fun e =>
        if e.platformType = PlatformType.star then { e with collected := false, alpha := 1 }
        else e)) := by
  constructor
  · have hy : (stepClampX (stepGround (stepCollide (stepIntegrate st)))).player.y ≤ groundY := by
      have hg : (stepGround (stepCollide (stepIntegrate st))).player.y ≤ groundY := by
        unfold stepGround
        split
        · exact le_refl groundY
        · next hlt => exact le_of_lt (lt_of_not_le hlt)
      have hx : (stepClampX (stepGround (stepCollide (stepIntegrate st)))).player.y =
          (stepGround (stepCollide (stepIntegrate st))).player.y := by
        unfold stepClampX
        split
        · rfl
        · split
          · rfl
          · rfl
      rw [hx]
      exact hg
    refine ⟨?_, hy⟩
    unfold updatePhysics fallCheck
    rw [if_neg]
    intro hcon
    have : groundY < (stepClampX (stepGround (stepCollide (stepIntegrate st)))).player.y := by
      calc groundY < screenH + 100 := by norm_num [groundY, screenH, playerH]
        _ < _ := hcon
    exact absurd hy (not_le.mpr this)
  · unfold resetGame
    cases hf : st.platforms.find?
        (fun a => decide (a.platformType = PlatformType.playerStart)) with
    | some e =>
      refine ⟨rfl, rfl, rfl, ?_, ?_, rfl⟩
      · intro f hfe
        obtain rfl : e = f := Option.some.inj hfe
        exact ⟨rfl, rfl⟩
      · intro hnone
        exact Option.noConfusion hnone
    | none =>
      refine ⟨rfl, rfl, rfl, ?_, fun _ => ⟨rfl, rfl⟩, rfl⟩
      intro f hfe
      exact Option.noConfusion hfe

/-- Witness for C5 amended: on `stateC5` the tick reduces to the
non-reset pipeline, and a direct `resetGame` would move the character to
the `playerStart` marker at `(50, 80)`. -/
theorem fallReset_behavior_wit :
    updatePhysics stateC5 = stepClampX (stepGround (stepCollide (stepIntegrate stateC5))) ∧
    (resetGame stateC5).player.x = 50 ∧ (resetGame stateC5).player.y = 80 :=
  ⟨(fallReset_behavior stateC5).1.1,
   (fallReset_behavior stateC5).2.2.2.2.1 (mkPlayerStart 50 80) rfl⟩

/-! ## Claim C1: save-then-load round trip -/

/-- Serializing one well-formed live entity and reconstructing it
preserves the observable fields. -/
theorem load_save_entity (e : Entity) (h : wfEntity e = true) :
    (loadPlatform (savePlatformRecord e)).map fieldValues = some (fieldValues e) := by
  rcases hpt : e.platformType with _ | _ | _ | _
  · -- solid
    unfold wfEntity at h
    rw [hpt] at h
    simp only [Bool.and_eq_true] at h
    obtain ⟨hw0, hh0⟩ := h
    cases hw : e.platformWidth with
    | none => rw [hw] at hw0; exact Bool.noConfusion hw0
    | some w =>
      cases hh : e.platformHeight with
      | none => rw [hh] at hh0; exact Bool.noConfusion hh0
      | some hgt =>
        rw [hw] at hw0
        rw [hh] at hh0
        have hwpos : 0 < w := by simpa using hw0
        have hhpos : 0 < hgt := by simpa using hh0
        simp only [savePlatformRecord, loadPlatform, hpt, hw, hh, PlatformType.ctorName, jsOrQ,
          if_neg (ne_of_gt hwpos), if_neg (ne_of_gt hhpos)]
        simp [fieldValues, mkSolidPlatform, hpt, hw, hh]
  · -- trampoline
    unfold wfEntity at h
    rw [hpt] at h
    have hbf : e.bounceForce < 0 := by simpa using h
    simp only [savePlatformRecord, loadPlatform, hpt, PlatformType.ctorName, jsOrQ,
      if_neg (ne_of_lt hbf)]
    simp [fieldValues, mkTrampoline, hpt]
  · -- star
    simp only [savePlatformRecord, loadPlatform, hpt, PlatformType.ctorName]
    cases hc : e.collected with
    | false => simp [fieldValues, mkStar, hpt, hc]
    | true => simp [fieldValues, mkStar, hpt, hc]
  · -- playerStart
    simp only [savePlatformRecord, loadPlatform, hpt, PlatformType.ctorName]
    simp [fieldValues, mkPlayerStart, hpt]

/-- Serializing a well-formed live sequence and reconstructing it
preserves the observable fields of every entity, in order. -/
theorem load_save_list (l : List Entity) (h : ∀ e ∈ l, wfEntity e = true) :
    ((l.map savePlatformRecord).filterMap loadPlatform).map fieldValues = l.map fieldValues := by
  induction l with
  | nil => rfl
  | cons a t ih =>
    have ha := h a (List.mem_cons_self a t)
    have ht := fun e he => h e (List.mem_cons_of_mem a he)
    have hsome := load_save_entity a ha
    cases hl : loadPlatform (savePlatformRecord a) with
    | none =>
      rw [hl] at hsome
      exact absurd hsome (by simp)
    | some b =>
      rw [hl] at hsome
      have hb : fieldValues b = fieldValues a := by simpa using hsome
      simp only [List.map_cons, List.filterMap_cons, hl]
      rw [hb, ih ht]

/-- C1: for every session whose live entities are well-formed (solids
with positive dimensions, trampolines with negative bounce force — the
data model's entity kinds), saving a level and then loading it succeeds
and yields a live sequence with the same count, the same type tags in
the same order and the same observable field values (x, y, width/height
for solids, bounceForce for trampolines, collected flag for stars), and
restores the recorded start position. -/
theorem saveLoad_roundtrip (name : String) (s : Session)
    (h : ∀ e ∈ s.game.platforms, wfEntity e = true) :
    (saveLevel name s).2 = true ∧
    (loadLevel name (saveLevel name s).1).2 = true ∧
    ((loadLevel name (saveLevel name s).1).1.game.platforms.map fieldValues =
      s.game.platforms.map fieldValues) ∧
    ((loadLevel name (saveLevel name s).1).1.game.platforms.length =
      s.game.platforms.length) ∧
    (loadLevel name (saveLevel name s).1).1.game.playerStartPos = s.game.playerStartPos := by
  have hlv : (saveLevel name s).1.levels name = some
      { name := name, platforms := s.game.platforms.map savePlatformRecord,
        playerStart := s.game.playerStartPos } := by
    simp [saveLevel]
  have hL : loadLevel name (saveLevel name s).1 =
      ({ (saveLevel name s).1 with
          game := { (saveLevel name s).1.game with
            platforms := (s.game.platforms.map savePlatformRecord).filterMap loadPlatform,
            playerStartPos := s.game.playerStartPos },
          currentLevelName := some name,
          lastLevel := some name }, true) := by
    unfold loadLevel
    rw [hlv]
  rw [hL]
  have hmap := load_save_list s.game.platforms h
  refine ⟨rfl, rfl, hmap, ?_, rfl⟩
  have hlen := congrArg List.length hmap
  simpa using hlen

/-- A session whose live sequence contains all four entity kinds,
including a collected star. -/
def sessionC1 : Session :=
  { game :=
      { player := { x := 100, y := 100, vx := 0, vy := 0, onGround := false },
        platforms := [mkSolidPlatform 150 300 100 15, mkTrampoline 200 450 (-18),
                      mkStar 300 170, { mkStar 500 220 with collected := true, alpha := 1/2 },
                      mkPlayerStart 50 80],
        playerStartPos := { x := 100, y := 100 } },
    currentLevelName := none,
    levels := fun _ => none,
    lastLevel := none }

/-- Witness for C1 at a concrete five-entity level. -/
theorem saveLoad_roundtrip_wit :
    (saveLevel "Demo" sessionC1).2 = true ∧
    (loadLevel "Demo" (saveLevel "Demo" sessionC1).1).2 = true ∧
    ((loadLevel "Demo" (saveLevel "Demo" sessionC1).1).1.game.platforms.map fieldValues =
      sessionC1.game.platforms.map fieldValues) ∧
    ((loadLevel "Demo" (saveLevel "Demo" sessionC1).1).1.game.platforms.length =
      sessionC1.game.platforms.length) ∧
    (loadLevel "Demo" (saveLevel "Demo" sessionC1).1).1.game.playerStartPos =
      sessionC1.game.playerStartPos :=
  saveLoad_roundtrip "Demo" sessionC1 (by decide)

end TrampolineGame
